import Mathlib

/-!
Verification of the ejabberd XML-RPC client library (ejabberd-python3d):
a shallow embedding of the argument/response marshalling pipeline
(`ejabberd_python3d/serializers.py`, `abc/api.py`, `abc/methods.py`,
`client.py`) together with proofs of the specified properties.

Python dynamic values are embedded as the inductive type `Val`; Python
exceptions as `PyErr`; dictionaries as insertion-ordered association
lists with Python `dict` update semantics.
-/

namespace Ejd

/-- Embedding of the Python values flowing through the marshalling
pipeline: `None`, `str`, `int`, `bool`, `list`, `dict`, and enum
members (`ejabberd_python3d.abc.api.Enum` subclasses, identified by
class name, member name and member value). -/
inductive Val where
  | none
  | str (s : String)
  | int (n : Int)
  | bool (b : Bool)
  | list (xs : List Val)
  | dict (xs : List (String × Val))
  | enumMember (cls : String) (name : String) (value : Int)

/-- Embedding of the Python exceptions raised by the pipeline:
`ValueError` (the serializers' invalid-value error), `MissingArguments`
(`core/errors.py`), `KeyError`, `AttributeError`, `TypeError`,
`AssertionError` (failed `assert`), `UserAlreadyRegisteredError`
(`core/errors.py`) and the generic `Exception` that `_call_api` raises
to wrap a transport `Fault`. -/
inductive PyErr where
  | valueError (msg : String)
  | missingArguments (msg : String)
  | keyError (k : String)
  | attributeError (msg : String)
  | typeError (msg : String)
  | assertionError (msg : String)
  | userAlreadyRegistered (msg : String)
  | exception (msg : String)
deriving Repr, DecidableEq

/-- A Python `dict` with string keys: an insertion-ordered association
list.  Updating an existing key keeps its position, as CPython does. -/
abbrev Dict := List (String × Val)

/-- `d[k]` lookup returning an option (`d.get(k)` semantics). -/
def dictGet (d : Dict) (k : String) : Option Val :=
  (d.find? (fun p => p.1 = k)).map (·.2)

/-- `d[k] = v`: replace in place if the key exists, else append. -/
def dictSet (d : Dict) (k : String) (v : Val) : Dict :=
  match d with
  | [] => [(k, v)]
  | (k0, v0) :: rest =>
      if k0 = k then (k0, v) :: rest else (k0, v0) :: dictSet rest k v

/-- `d.pop(k)`: the removed value and the remaining dict, or `none`
when the key is absent (Python raises `KeyError` at the call site). -/
def dictPop (d : Dict) (k : String) : Option (Val × Dict) :=
  match d with
  | [] => Option.none
  | (k0, v0) :: rest =>
      if k0 = k then some (v0, rest)
      else (dictPop rest k).map (fun p => (p.1, (k0, v0) :: p.2))

/-- The digit character for `d` (`0 ≤ d < 10`). -/
def digitCh (d : Nat) : Char := Char.ofNat (48 + d)

/-- Decimal rendering of a natural number, as Python `str` renders it:
most-significant digit first, `"0"` for zero. -/
def natToChars (n : Nat) : List Char :=
  if n = 0 then ['0'] else ((Nat.digits 10 n).reverse).map digitCh

/-- Embedding of Python `str(n)` for an integer `n`. -/
def pyStrInt (n : Int) : String :=
  match n with
  | .ofNat m => String.mk (natToChars m)
  | .negSucc m => String.mk ('-' :: natToChars (m + 1))

/-- Most-significant-first decimal value of a digit-character list. -/
def digitsToNat (l : List Char) : Nat :=
  l.foldl (fun a c => 10 * a + (c.toNat - 48)) 0

/-- Embedding of Python `int(s)` on a string: an optional sign followed
by at least one decimal digit; anything else raises `ValueError`. -/
def pyParseInt (l : List Char) : Except PyErr Int :=
  let core : List Char → Except PyErr Int := fun ds =>
    if ds ≠ [] ∧ ds.all Char.isDigit then .ok (Int.ofNat (digitsToNat ds))
    else .error (.valueError ("invalid literal for int() with base 10: \x27" ++
      String.mk l ++ "\x27"))
  match l with
  | '-' :: rest => (core rest).map (fun n => -n)
  | '+' :: rest => core rest
  | _ => core l

/-- Embedding of Python `int(value)` on a pipeline value: parses
strings, passes integers through, coerces booleans. -/
def pyIntOf (v : Val) : Except PyErr Int :=
  match v with
  | .str s => pyParseInt s.data
  | .int n => .ok n
  | .bool b => .ok (if b then 1 else 0)
  | _ => .error (.typeError "int() argument must be a string or a number")

/-- Python type name of a value, as interpolated by the serializers'
`"... but got {}".format(type(value))` messages. -/
def pyTypeStr (v : Val) : String :=
  match v with
  | .none => "<class \x27NoneType\x27>"
  | .str _ => "<class \x27str\x27>"
  | .int _ => "<class \x27int\x27>"
  | .bool _ => "<class \x27bool\x27>"
  | .list _ => "<class \x27list\x27>"
  | .dict _ => "<class \x27dict\x27>"
  | .enumMember c _ _ => "<enum \x27" ++ c ++ "\x27>"

/-- Python `"%s" % value` rendering for the value kinds reaching it. -/
def pyFormatS (v : Val) : String :=
  match v with
  | .none => "None"
  | .str s => s
  | .int n => pyStrInt n
  | .bool b => if b then "True" else "False"
  | .list _ => "<list>"
  | .dict _ => "<dict>"
  | .enumMember c n _ => c ++ "." ++ n

/-- A closed enumeration (`abc/api.py` `Enum`): a class name and its
ordered members (name, value). -/
structure EnumClass where
  clsName : String
  members : List (String × Int)
deriving Repr, DecidableEq

/-- `Enum.get_by_name`: `getattr(cls, name, None)` — the member with
that name, or `none`. -/
def EnumClass.get_by_name (c : EnumClass) (n : String) : Option (String × Int) :=
  c.members.find? (fun p => p.1 = n)

/-- `Enum.get_by_value`: `cls(value)` — the member with that value, or
`none` (Python raises `ValueError`). -/
def EnumClass.get_by_value (c : EnumClass) (v : Int) : Option (String × Int) :=
  c.members.find? (fun p => p.2 = v)

/-- `muc/enums.py` `Affiliation`. -/
def Affiliation : EnumClass :=
  ⟨"Affiliation", [("outcast", 1), ("none", 2), ("member", 3), ("admin", 4), ("owner", 5)]⟩

/-- `defaults/enums.py` `LogLevelOptions`. -/
def LogLevelOptions : EnumClass :=
  ⟨"LogLevelOptions", [("none", 1), ("emergency", 2), ("alert", 3), ("critical", 4),
    ("error", 5), ("warning", 6), ("notice", 7), ("info", 8), ("debug", 9)]⟩

/-- The serializer hierarchy of `serializers.py` as a closed variant
type: `StringSerializer`, `IntegerSerializer`,
`PositiveIntegerSerializer`, `BooleanSerializer`, `EnumSerializer`
(over a concrete enum class) and `ListSerializer`. -/
inductive Serializer where
  | string
  | integer
  | positiveInteger
  | boolean
  | enumS (cls : EnumClass)
  | listS
deriving Repr, DecidableEq

/-- Comma-join of `ListSerializer.to_api`: `vl += value[v]` for string
elements; a non-string element raises `TypeError` (string
concatenation). -/
def joinComma (xs : List Val) (first : Bool) : Except PyErr String :=
  match xs with
  | [] => .ok ""
  | .str s :: rest =>
      (joinComma rest false).map (fun tail =>
        (if first then s else "," ++ s) ++ tail)
  | _ :: _ => .error (.typeError "can only concatenate str (not other) to str")

/-- `to_api` (native value to wire value) of each serializer, straight
from `serializers.py`.  Note the Python subtleties kept here:
`isinstance(b, int)` is true for booleans, and `EnumSerializer.to_api`
passes any string through unvalidated. -/
def Serializer.to_api : Serializer → Val → Except PyErr Val
  | .string, .str s => .ok (.str s)
  | .string, v => .error (.valueError ("Expects str or unicode, but got " ++ pyTypeStr v))
  | .integer, .int n => .ok (.str (pyStrInt n))
  | .integer, .bool b => .ok (.str (if b then "True" else "False"))
  | .integer, v => .error (.valueError ("Expects int or long, but got " ++ pyTypeStr v))
  | .positiveInteger, .int n =>
      if n < 0 then .error (.valueError ("Expects positive int or long, but got " ++
        pyTypeStr (.int n)))
      else .ok (.str (pyStrInt n))
  | .positiveInteger, .bool b => .ok (.str (if b then "True" else "False"))
  | .positiveInteger, v =>
      .error (.valueError ("Expects positive int or long, but got " ++ pyTypeStr v))
  | .boolean, .bool b => .ok (.str (if b then "true" else "false"))
  | .boolean, _ => .error (.valueError "Expects boolean")
  | .enumS cls, .enumMember c n v =>
      if c = cls.clsName then .ok (.str n)
      else .error (.valueError ("Invalid value for enum " ++ cls.clsName ++ ": " ++
        pyFormatS (.enumMember c n v)))
  | .enumS _, .str s => .ok (.str s)
  | .enumS cls, .int n =>
      match cls.get_by_value n with
      | some m => .ok (.str m.1)
      | Option.none => .error (.valueError (pyStrInt n ++ " is not a valid " ++ cls.clsName))
  | .enumS cls, .bool b =>
      match cls.get_by_value (if b then 1 else 0) with
      | some m => .ok (.str m.1)
      | Option.none => .error (.valueError ((if b then "True" else "False") ++
        " is not a valid " ++ cls.clsName))
  | .enumS cls, v =>
      .error (.valueError ("Invalid value for enum " ++ cls.clsName ++ ": " ++ pyFormatS v))
  | .listS, .list xs => (joinComma xs true).map Val.str
  | .listS, v => .error (.valueError ("Expects list, but got " ++ pyTypeStr v))

/-- `to_builtin` (wire value back to native value) of each serializer,
straight from `serializers.py`.  `EnumSerializer.to_builtin` validates
the name but has no `return` statement: it always produces Python
`None`. -/
def Serializer.to_builtin : Serializer → Val → Except PyErr Val
  | .string, .str s => .ok (.str s)
  | .string, v => .error (.valueError ("Expects str or unicode, but got " ++ pyTypeStr v))
  | .integer, v => (pyIntOf v).map Val.int
  | .positiveInteger, v => do
      let n ← pyIntOf v
      if n < 0 then
        .error (.valueError ("Expects positive int or long, but got " ++ pyTypeStr v))
      else
        .ok (.int n)
  | .boolean, .str s =>
      if s = "true" then .ok (.bool true)
      else if s = "false" then .ok (.bool false)
      else .error (.valueError ("Expects true|false, but got " ++ pyTypeStr (.str s)))
  | .boolean, v => .error (.valueError ("Expects true|false, but got " ++ pyTypeStr v))
  | .enumS cls, .str s =>
      match cls.get_by_name s with
      | some _ => .ok .none
      | Option.none => .error (.valueError ("Expects enum value for " ++ cls.clsName ++
          ", but got " ++ pyTypeStr (.str s)))
  | .enumS _, v => .error (.valueError ("Expects str or unicode , but got " ++ pyTypeStr v))
  | .listS, .list xs => .ok (.list xs)
  | .listS, v => .error (.valueError ("Expects list, but got " ++ pyTypeStr v))

/-- `abc/api.py` `APIArgument`: a name, required flag (default true)
and serializer class. -/
structure APIArgument where
  name : String
  required : Bool := true
  serializer : Serializer

/-- `response.get(k)`: `none` when absent; `AttributeError` when the
response is not a mapping. -/
def pyGet (v : Val) (k : String) : Except PyErr (Option Val) :=
  match v with
  | .dict d => .ok (dictGet d k)
  | w => .error (.attributeError (pyTypeStr w ++ " object has no attribute \x27get\x27"))

/-- `response.get(k, default)`. -/
def pyGetD (v : Val) (k : String) (dflt : Val) : Except PyErr Val :=
  (pyGet v k).map (fun o => o.getD dflt)

/-- `v[k]` subscript on a mapping: `KeyError` when absent, `TypeError`
on a non-mapping. -/
def pySub (v : Val) (k : String) : Except PyErr Val :=
  match v with
  | .dict d =>
      match dictGet d k with
      | some w => .ok w
      | Option.none => .error (.keyError k)
  | w => .error (.typeError (pyTypeStr w ++ " is not subscriptable"))

/-- `v[i]` subscript on a list: Python raises `IndexError` when out of
range, embedded here through the generic `exception` constructor. -/
def pyIndex (v : Val) (i : Nat) : Except PyErr Val :=
  match v with
  | .list xs =>
      match xs.get? i with
      | some w => .ok w
      | Option.none => .error (.exception "IndexError: list index out of range")
  | w => .error (.typeError (pyTypeStr w ++ " is not subscriptable"))

/-- Python `value == n` for an integer literal `n`: integers compare
numerically, booleans coerce to 0/1, everything else is unequal. -/
def pyEqInt (v : Val) (n : Int) : Bool :=
  match v with
  | .int m => m = n
  | .bool b => (if b then (1 : Int) else 0) = n
  | _ => false

/-- `abc/api.py` `API`: an operation descriptor — remote method name,
ordered argument descriptors, the `authenticate` flag, and the three
hooks `transform_arguments` / `validate_response` /
`transform_response` (the source methods also receive the `api` object
itself, which no overriding hook uses, so it is dropped here). -/
structure API where
  method : String
  arguments : List APIArgument
  authenticate : Bool := true
  transform_arguments : Dict → Except PyErr Dict := fun kwargs => .ok kwargs
  validate_response : Dict → Val → Except PyErr Unit := fun _ _ => .ok ()
  transform_response : Dict → Val → Except PyErr Val := fun _ resp => .ok resp

/-- Shared `transform_response` body `return response.get(\x27res\x27) == 0`. -/
def resZeroResponse (resp : Val) : Except PyErr Val :=
  (pyGet resp "res").map (fun o => .bool (pyEqInt (o.getD .none) 0))

/-- `abc/methods.py` `RegisteredUsers`. -/
def RegisteredUsers : API where
  method := "registered_users"
  arguments := [⟨"host", true, .string⟩]
  transform_response := fun _ resp => pyGetD resp "users" (.list [])

/-- `abc/methods.py` `Register`: `validate_response` raises
`UserAlreadyRegisteredError` naming the user when `res == 1`;
`transform_response` is the `res == 0` success indicator. -/
def Register : API where
  method := "register"
  arguments := [⟨"user", true, .string⟩, ⟨"host", true, .string⟩, ⟨"password", true, .string⟩]
  validate_response := fun args resp => do
    let r ← pyGet resp "res"
    if pyEqInt (r.getD .none) 1 then
      .error (.userAlreadyRegistered ("User with username " ++
        pyFormatS ((dictGet args "user").getD .none) ++ " already exist"))
    else .ok ()
  transform_response := fun _ resp => resZeroResponse resp

/-- `abc/methods.py` `SendMessage`: `transform_arguments` pops
`from_jid` and stores it under `from`; `subject` is the one optional
argument of the catalog. -/
def SendMessage : API where
  method := "send_message"
  arguments := [⟨"type", true, .string⟩, ⟨"from", true, .string⟩, ⟨"to", true, .string⟩,
    ⟨"subject", false, .string⟩, ⟨"body", true, .string⟩]
  transform_arguments := fun kwargs =>
    match dictPop kwargs "from_jid" with
    | Option.none => .error (.keyError "from_jid")
    | some (v, rest) => .ok (dictSet rest "from" v)
  transform_response := fun _ resp => resZeroResponse resp

/-- `Affiliation.get_by_name(x)`: `getattr` needs a string attribute
name; unknown names give Python `None`. -/
def affiliationByName (v : Val) : Except PyErr Val :=
  match v with
  | .str s =>
      match Affiliation.get_by_name s with
      | some m => .ok (.enumMember "Affiliation" m.1 m.2)
      | Option.none => .ok .none
  | _ => .error (.typeError "attribute name must be string")

/-- One entry of `GetRoomAffiliations.transform_response`'s list
comprehension: `subdict[\x27affiliation\x27]` is a 4-element list of
single-key mappings at fixed positions, flattened into one record with
the affiliation name resolved through `Affiliation.get_by_name`
(fields evaluated in the source's dict-display order). -/
def flattenAffiliation (sd : Val) : Except PyErr Val := do
  let a ← pySub sd "affiliation"
  let e0 ← pyIndex a 0
  let u ← pySub e0 "username"
  let e1 ← pyIndex a 1
  let dm ← pySub e1 "domain"
  let e2 ← pyIndex a 2
  let af ← pySub e2 "affiliation"
  let mem ← affiliationByName af
  let e3 ← pyIndex a 3
  let rs ← pySub e3 "reason"
  pure (Val.dict [("username", u), ("domain", dm), ("affiliation", mem),
    ("reason", rs)])

/-- `abc/methods.py` `GetRoomAffiliations.transform_response`: flattens
each entry of `response[\x27affiliations\x27]`. -/
def getRoomAffiliationsResponse (resp : Val) : Except PyErr Val := do
  let affs ← pyGetD resp "affiliations" (.list [])
  match affs with
  | .list subdicts =>
      let recs ← subdicts.mapM flattenAffiliation
      .ok (.list recs)
  | w => .error (.typeError (pyTypeStr w ++ " object is not iterable"))

/-- `abc/methods.py` `GetRoomAffiliations`. -/
def GetRoomAffiliations : API where
  method := "get_room_affiliations"
  arguments := [⟨"name", true, .string⟩, ⟨"service", true, .string⟩]
  transform_response := fun _ resp => getRoomAffiliationsResponse resp

/-- `client.py` `EjabberdAPIClient`: the connection identity held by
the dispatcher (the lazily-created proxy object is represented by the
`Transport` collaborator below). -/
structure Client where
  host : String
  username : String
  password : String
  server : String
  port : Int
  protocol : String
  admin : Bool

/-- `EjabberdAPIClient.auth`: the credential record. -/
def Client.auth (c : Client) : Val :=
  .dict [("user", .str c.username), ("server", .str c.server),
    ("password", .str c.password), ("admin", .bool c.admin)]

/-- The transport collaborator (the XML-RPC `ServerProxy`): resolving
the remote callable (`getattr`) and invoking it with positional
payloads; either step may signal an `xmlrpc.client.Fault` carrying
`faultString` and `faultCode`. -/
structure Transport where
  resolve : String → Except (String × Int) Unit
  call : String → List Val → Except (String × Int) Val

/-- What the transport collaborator records: a method resolution, or an
invocation with its positional payloads. -/
inductive TransportEvent where
  | resolve (method : String)
  | invoke (method : String) (payloads : List Val)

/-- `_call_api`'s wrapping of a transport fault:
`Exception(f"\x7be.faultString\x7d - code: \x7be.faultCode\x7d")`. -/
def faultWrap (msg : String) (code : Int) : PyErr :=
  .exception (msg ++ " - code: " ++ pyStrInt code)

/-- `EjabberdAPIClient._validate_and_serialize_arguments`: walk the
descriptor list in order; a required name absent from the arguments
raises `MissingArguments` naming it; otherwise `arguments.get(name)`
(defaulting to `None`) is pushed through the descriptor's serializer
into the wire mapping. -/
def validate_and_serialize_arguments (descs : List APIArgument) (args : Dict)
    (acc : Dict := []) : Except PyErr Dict :=
  match descs with
  | [] => .ok acc
  | a :: rest =>
      if a.required ∧ (dictGet args a.name).isNone then
        .error (.missingArguments ("Missing required argument \x27" ++ a.name ++ "\x27"))
      else
        match a.serializer.to_api ((dictGet args a.name).getD .none) with
        | .error e => .error e
        | .ok v => validate_and_serialize_arguments rest args (dictSet acc a.name v)

/-- `EjabberdAPIClient._call_api`: copy and transform the arguments,
validate/serialize them, resolve the remote method (wrapping a fault),
invoke it — credentials first when the operation authenticates —
(wrapping a fault), then validate and transform the response.  Returns
the pipeline outcome together with the list of transport events, in
order. -/
def call_api (c : Client) (t : Transport) (api : API) (kwargs : Dict) :
    Except PyErr Val × List TransportEvent :=
  match api.transform_arguments kwargs with
  | .error e => (.error e, [])
  | .ok targs =>
      match validate_and_serialize_arguments api.arguments targs with
      | .error e => (.error e, [])
      | .ok sargs =>
          match t.resolve api.method with
          | .error (msg, code) => (.error (faultWrap msg code), [.resolve api.method])
          | .ok () =>
              let payloads :=
                if api.authenticate then [c.auth, .dict sargs] else [.dict sargs]
              let log := [TransportEvent.resolve api.method,
                TransportEvent.invoke api.method payloads]
              match t.call api.method payloads with
              | .error (msg, code) => (.error (faultWrap msg code), log)
              | .ok resp =>
                  match api.validate_response sargs resp with
                  | .error e => (.error e, log)
                  | .ok () => (api.transform_response sargs resp, log)

/-- A dispatcher instance with concrete identity, used by the concrete
scenarios. -/
def stubClient : Client :=
  ⟨"xmpp.example.com", "admin", "adminpw", "example.com", 4560, "http", true⟩

/-- A transport stub that resolves every method and answers every
invocation with the fixed response `resp`. -/
def stubTransport (resp : Val) : Transport where
  resolve := fun _ => .ok ()
  call := fun _ _ => .ok resp

/-- A transport whose invocation step always signals the fault
`(msg, code)`. -/
def faultyCallTransport (msg : String) (code : Int) : Transport where
  resolve := fun _ => .ok ()
  call := fun _ _ => .error (msg, code)

/-! ### Mutable-dictionary model

Python passes dictionaries by reference and the `transform_arguments`
hooks mutate theirs in place (`pop` / `update` / item assignment).  To
state the frame property — the caller's mapping is never mutated — the
call pipeline is re-embedded over an explicit store of dictionaries.
`**kwargs` at a call site packs a fresh dictionary, and
`copy.copy(kwargs)` copies again; both appear as allocations. -/

/-- A reference to a dictionary in the store. -/
abbrev Ref := Nat

/-- The store of live dictionaries, addressed by allocation index. -/
abbrev Heap := List Dict

/-- Dereference (reading an unallocated reference yields the empty
dict; the pipeline never does). -/
def heapRead (h : Heap) (r : Ref) : Dict := (h.get? r).getD []

/-- In-place mutation of the dictionary behind `r`. -/
def heapWrite (h : Heap) (r : Ref) (d : Dict) : Heap := h.set r d

/-- Allocation of a fresh dictionary. -/
def heapAlloc (h : Heap) (d : Dict) : Heap × Ref := (h ++ [d], h.length)

/-- A `transform_arguments` hook over the store: receives the
reference to its (fresh) keyword dictionary, mutates the store, and
returns the reference it hands back — mutations performed before an
exception persist, so the store is returned in both outcomes. -/
abbrev HeapHook := Heap → Ref → Heap × Except PyErr Ref

/-- The default `API.transform_arguments`: `return kwargs`. -/
def defaultHook : HeapHook := fun h r => (h, .ok r)

/-- `CheckPasswordHash.transform_arguments`: pops `password`, derives
`passwordhash` through `format_password_hash_sha` and adds
`hashmethod = "sha"`.  `format_password_hash_sha` lives in
`core/utils.py`, which is absent from the sources; the spec describes
it as converting a plaintext secret into a one-way digest, so it is
taken as an arbitrary function `digest` on strings. -/
def checkPasswordHashHook (digest : String → String) : HeapHook := fun h r =>
  let kw := heapRead h r
  match dictPop kw "password" with
  | Option.none => (h, .error (.keyError "password"))
  | some (v, kw2) =>
      let h2 := heapWrite h r kw2
      match v with
      | .str s =>
          (heapWrite h2 r (dictSet (dictSet kw2 "passwordhash" (.str (digest s)))
            "hashmethod" (.str "sha")), .ok r)
      | w => (h2, .error (.typeError ("Strings must be encoded before hashing, got " ++
          pyTypeStr w)))

/-- `SendMessage.transform_arguments` over the store: pops `from_jid`
and stores it under `from`. -/
def sendMessageHook : HeapHook := fun h r =>
  let kw := heapRead h r
  match dictPop kw "from_jid" with
  | Option.none => (h, .error (.keyError "from_jid"))
  | some (v, kw2) => (heapWrite h r (dictSet kw2 "from" v), .ok r)

/-- `muc/enums.py` `AllowVisitorPrivateMessage`. -/
def AllowVisitorPrivateMessage : EnumClass :=
  ⟨"AllowVisitorPrivateMessage", [("anyone", 1), ("moderators", 2), ("nobody", 3)]⟩

/-- `muc/__init__.py` `muc_room_options_serializers`, keyed by member
name of `MUCRoomOption`; `.get(option, StringSerializer)` supplies the
string default. -/
def muc_room_options_serializers (option : String) : Serializer :=
  if option = "max_users" then .positiveInteger
  else if option = "password" ∨ option = "title" then .string
  else if option = "allow_private_messages_from_visitors" then
    .enumS AllowVisitorPrivateMessage
  else if option ∈ ["allow_change_subj", "allow_private_messages", "allow_query_users",
    "allow_user_invites", "allow_visitor_nickchange", "allow_visitor_status", "anonymous",
    "captcha_protected", "logging", "members_by_default", "members_only", "moderated",
    "password_protected", "persistent", "public", "public_list"] then .boolean
  else .string

/-- `ChangeRoomOption.transform_arguments`: asserts the `option`
argument is a `MUCRoomOption` member and re-serializes `value` through
that option's serializer, assigning the result back in place. -/
def changeRoomOptionHook : HeapHook := fun h r =>
  let kw := heapRead h r
  match (dictGet kw "option").getD .none with
  | .enumMember c n _ =>
      if c = "MUCRoomOption" then
        match dictGet kw "value" with
        | Option.none => (h, .error (.keyError "value"))
        | some oldv =>
            match (muc_room_options_serializers n).to_api oldv with
            | .error e => (h, .error e)
            | .ok w => (heapWrite h r (dictSet kw "value" w), .ok r)
      else (h, .error (.assertionError ""))
  | _ => (h, .error (.assertionError ""))

/-- `SetLogLevel.transform_arguments`: pops `loglevel`, asserts it is a
`LogLevelOptions` member, then assigns `value` from `kwargs["value"]`
(raising `KeyError` when the caller supplied none). -/
def setLogLevelHook : HeapHook := fun h r =>
  let kw := heapRead h r
  match dictPop kw "loglevel" with
  | Option.none => (h, .error (.keyError "loglevel"))
  | some (v, kw2) =>
      let h2 := heapWrite h r kw2
      match v with
      | .enumMember c _ _ =>
          if c = "LogLevelOptions" then
            match dictGet kw2 "value" with
            | Option.none => (h2, .error (.keyError "value"))
            | some oldv =>
                match Serializer.string.to_api oldv with
                | .error e => (h2, .error e)
                | .ok w => (heapWrite h2 r (dictSet kw2 "value" w), .ok r)
          else (h2, .error (.assertionError ""))
      | _ => (h2, .error (.assertionError ""))

/-- An operation descriptor over the mutable-dictionary model. -/
structure HeapAPI where
  method : String
  arguments : List APIArgument
  authenticate : Bool := true
  transform_arguments : HeapHook := defaultHook
  validate_response : Dict → Val → Except PyErr Unit := fun _ _ => .ok ()
  transform_response : Dict → Val → Except PyErr Val := fun _ resp => .ok resp

/-- The pipeline of `_call_api` from the `transform_arguments` hook
onward, over the mutable-dictionary model: the hook receives the store
and the reference `tRef` to its (fresh) keyword dictionary; the rest
is value-level as in `call_api`. -/
def call_api_ref_core (c : Client) (t : Transport) (api : HeapAPI) (h3 : Heap)
    (tRef : Ref) : Heap × Except PyErr Val × List TransportEvent :=
  match api.transform_arguments h3 tRef with
  | (h4, .error e) => (h4, .error e, [])
  | (h4, .ok retRef) =>
      match validate_and_serialize_arguments api.arguments (heapRead h4 retRef) with
      | .error e => (h4, .error e, [])
      | .ok sargs =>
          match t.resolve api.method with
          | .error (msg, code) => (h4, .error (faultWrap msg code), [.resolve api.method])
          | .ok () =>
              let payloads :=
                if api.authenticate then [c.auth, .dict sargs] else [.dict sargs]
              let log := [TransportEvent.resolve api.method,
                TransportEvent.invoke api.method payloads]
              match t.call api.method payloads with
              | .error (msg, code) => (h4, .error (faultWrap msg code), log)
              | .ok resp =>
                  match api.validate_response sargs resp with
                  | .error e => (h4, .error e, log)
                  | .ok () => (h4, api.transform_response sargs resp, log)

/-- `EjabberdAPIClient._call_api` over the mutable-dictionary model:
the caller's dictionary is packed into a fresh `kwargs` dict by the
`**kwargs` call convention, `copy.copy(kwargs)` copies again, and
`api.transform_arguments(**args)` hands the hook yet another fresh
dict. -/
def call_api_ref (c : Client) (t : Transport) (api : HeapAPI) (h0 : Heap)
    (callerRef : Ref) : Heap × Except PyErr Val × List TransportEvent :=
  let (h1, kwargsRef) := heapAlloc h0 (heapRead h0 callerRef)
  let (h2, argsRef) := heapAlloc h1 (heapRead h1 kwargsRef)
  let (h3, tRef) := heapAlloc h2 (heapRead h2 argsRef)
  call_api_ref_core c t api h3 tRef

/-- `Register` over the mutable-dictionary model (default hook). -/
def RegisterRef : HeapAPI where
  method := "register"
  arguments := Register.arguments
  validate_response := Register.validate_response
  transform_response := Register.transform_response

/-- `CheckPasswordHash` over the mutable-dictionary model. -/
def CheckPasswordHashRef (digest : String → String) : HeapAPI where
  method := "check_password_hash"
  arguments := [⟨"user", true, .string⟩, ⟨"host", true, .string⟩,
    ⟨"passwordhash", true, .string⟩, ⟨"hashmethod", true, .string⟩]
  transform_arguments := checkPasswordHashHook digest
  transform_response := fun _ resp => resZeroResponse resp

/-- `SendMessage` over the mutable-dictionary model. -/
def SendMessageRef : HeapAPI where
  method := "send_message"
  arguments := SendMessage.arguments
  transform_arguments := sendMessageHook
  transform_response := fun _ resp => resZeroResponse resp

/-- `ChangeRoomOption` over the mutable-dictionary model. -/
def ChangeRoomOptionRef : HeapAPI where
  method := "change_room_option"
  arguments := [⟨"name", true, .string⟩, ⟨"service", true, .string⟩,
    ⟨"option", true, .enumS (⟨"MUCRoomOption", []⟩ : EnumClass)⟩, ⟨"value", true, .string⟩]
  transform_arguments := changeRoomOptionHook
  transform_response := fun _ resp => resZeroResponse resp

/-- `SetLogLevel` over the mutable-dictionary model. -/
def SetLogLevelRef : HeapAPI where
  method := "set_loglevel"
  arguments := [⟨"loglevel", true, .enumS LogLevelOptions⟩]
  transform_arguments := setLogLevelHook
  transform_response := fun _ resp => resZeroResponse resp

/-- The operations whose `transform_arguments` hook is not the
default, together with a default-hook representative: every catalog
operation's hook is (an instance of) one of these five. -/
def heapCatalog (digest : String → String) : List HeapAPI :=
  [RegisterRef, CheckPasswordHashRef digest, SendMessageRef, ChangeRoomOptionRef,
    SetLogLevelRef]

/-! ### Connection-identity parsing (`EjabberdAPIClient.get_instance`) -/

/-- Character class of a URL scheme after its leading letter. -/
def isSchemeChar (c : Char) : Bool :=
  c.isAlpha ∨ c.isDigit ∨ c = '+' ∨ c = '-' ∨ c = '.'

/-- Scheme extraction of Python `urlparse`: the text before the first
`:` is the scheme when it is a non-empty letter-led run of scheme
characters; otherwise there is no scheme. -/
def parseSchemeSplit (l : List Char) : Option (List Char × List Char) :=
  let pre := l.takeWhile (fun c => c ≠ ':')
  if pre.length < l.length ∧ pre ≠ [] ∧ pre.head?.elim false Char.isAlpha ∧
      pre.all isSchemeChar then
    some (pre.map Char.toLower, l.drop (pre.length + 1))
  else Option.none

/-- A character ending the netloc: `urllib.parse.urlsplit`'s
`_splitnetloc` stops at the first of `/`, `?`, `#`. -/
def isNetlocEnd (c : Char) : Bool :=
  c = '/' ∨ c = '?' ∨ c = '#'

/-- `urllib.parse.urlparse`'s parameter split (`_splitparams`),
invoked when the post-query path contains `;`: the path is cut at the
first `;` at or after the last `/` (at the first `;` overall when
there is no `/`); when the last segment has no `;` the path is
unchanged. -/
def splitParams (l : List Char) : List Char :=
  if ';' ∈ l then
    if '/' ∈ l then
      let afterLast := (l.reverse.takeWhile (fun c => c ≠ '/')).reverse
      if ';' ∈ afterLast then
        (l.reverse.dropWhile (fun c => c ≠ '/')).reverse ++
          afterLast.takeWhile (fun c => c ≠ ';')
      else l
    else l.takeWhile (fun c => c ≠ ';')
  else l

/-- Python `urllib.parse.urlparse` restricted to the `scheme`,
`netloc` and `path` components: the netloc follows `//` and runs to
the first of `/`, `?` or `#`; the path is what remains after cutting
the fragment (from the first `#`), the query (from the first `?`) and
the parameters (`_splitparams`). -/
def pyUrlparse (l : List Char) : List Char × List Char × List Char :=
  let (scheme, rest) :=
    match parseSchemeSplit l with
    | some p => p
    | Option.none => ([], l)
  let (netloc, rest2) :=
    if rest.take 2 = ['/', '/'] then
      let r2 := rest.drop 2
      (r2.takeWhile (fun c => !isNetlocEnd c), r2.dropWhile (fun c => !isNetlocEnd c))
    else ([], rest)
  let noFrag := rest2.takeWhile (fun c => c ≠ '#')
  let noQuery := noFrag.takeWhile (fun c => c ≠ '?')
  (scheme, netloc, splitParams noQuery)

theorem digitCh_toNat_sub {d : Nat} (h : d < 10) : (digitCh d).toNat - 48 = d := by
  interval_cases d <;> decide

theorem digitCh_isDigit {d : Nat} (h : d < 10) : (digitCh d).isDigit = true := by
  interval_cases d <;> decide

theorem digitCh_ne_dash {d : Nat} (h : d < 10) : digitCh d ≠ '-' := by
  interval_cases d <;> decide

theorem digitCh_ne_plus {d : Nat} (h : d < 10) : digitCh d ≠ '+' := by
  interval_cases d <;> decide

theorem foldl_digitCh (M : List Nat) (hM : ∀ d ∈ M, d < 10) (a : Nat) :
    List.foldl (fun acc c => 10 * acc + (c.toNat - 48)) a ((M.map digitCh).reverse) =
      a * 10 ^ M.length + Nat.ofDigits 10 M := by
  induction M generalizing a with
  | nil => simp [Nat.ofDigits]
  | cons d M ih =>
      have hd : d < 10 := hM d (List.mem_cons_self d M)
      have hM2 : ∀ x ∈ M, x < 10 := fun x hx => hM x (List.mem_cons_of_mem d hx)
      simp only [List.map_cons, List.reverse_cons, List.foldl_append, List.foldl_cons,
        List.foldl_nil, ih hM2, Nat.ofDigits_cons, List.length_cons,
        digitCh_toNat_sub hd]
      ring

theorem digitsToNat_natToChars (n : Nat) : digitsToNat (natToChars n) = n := by
  by_cases h : n = 0
  · subst h; decide
  · unfold natToChars digitsToNat
    rw [if_neg h, List.map_reverse,
      foldl_digitCh _ (fun d hd => Nat.digits_lt_base (by norm_num) hd) 0,
      Nat.ofDigits_digits]
    simp

theorem natToChars_all_digit (n : Nat) : (natToChars n).all Char.isDigit = true := by
  by_cases h : n = 0
  · subst h; decide
  · unfold natToChars
    rw [if_neg h, List.all_eq_true]
    intro c hc
    rw [List.mem_map] at hc
    obtain ⟨d, hd, rfl⟩ := hc
    exact digitCh_isDigit (Nat.digits_lt_base (by norm_num) (List.mem_reverse.mp hd))

theorem natToChars_ne_nil (n : Nat) : natToChars n ≠ [] := by
  by_cases h : n = 0
  · subst h; decide
  · unfold natToChars
    rw [if_neg h]
    simp [Nat.digits_ne_nil_iff_ne_zero, h]

theorem pyParseInt_digits (ds : List Char) (hne : ds ≠ []) (hd : ds.all Char.isDigit = true) :
    pyParseInt ds = .ok (Int.ofNat (digitsToNat ds)) := by
  match ds, hne with
  | c :: rest, _ =>
    have hc : c.isDigit = true := by
      rw [List.all_eq_true] at hd
      exact hd c (List.mem_cons_self c rest)
    have hcdash : c ≠ '-' := by
      intro h; subst h; exact absurd hc (by decide)
    have hcplus : c ≠ '+' := by
      intro h; subst h; exact absurd hc (by decide)
    unfold pyParseInt
    split
    · next heq => exact absurd (List.cons.inj heq).1 hcdash
    · next heq => exact absurd (List.cons.inj heq).1 hcplus
    · simp [if_pos, hd]

theorem pyParseInt_pyStrInt (n : Int) : pyParseInt (pyStrInt n).data = .ok n := by
  match n with
  | .ofNat m =>
      show pyParseInt (natToChars m) = _
      rw [pyParseInt_digits _ (natToChars_ne_nil m) (natToChars_all_digit m),
        digitsToNat_natToChars]
  | .negSucc m =>
      show pyParseInt ('-' :: natToChars (m + 1)) = _
      unfold pyParseInt
      simp only [natToChars_ne_nil (m + 1), natToChars_all_digit (m + 1), ne_eq,
        not_false_eq_true, and_self, if_pos, Except.map_ok]
      rw [digitsToNat_natToChars]
      rfl

theorem to_api_none_error (s : Serializer) :
    ∃ m, s.to_api .none = .error (.valueError m) := by
  cases s <;> exact ⟨_, rfl⟩

theorem joinComma_str (xs : List String) (first : Bool) :
    ∃ j, joinComma (xs.map Val.str) first = .ok j := by
  induction xs generalizing first with
  | nil => exact ⟨"", rfl⟩
  | cons s xs ih =>
      obtain ⟨j, hj⟩ := ih false
      exact ⟨(if first then s else "," ++ s) ++ j, by simp [joinComma, hj, Except.map]⟩

theorem vas_error_of_missing (descs : List APIArgument) (args acc : Dict)
    (hex : ∃ a ∈ descs, a.required = true ∧ dictGet args a.name = Option.none) :
    ∃ e, validate_and_serialize_arguments descs args acc = .error e := by
  induction descs generalizing acc with
  | nil => obtain ⟨a, ha, _⟩ := hex; cases ha
  | cons b rest ih =>
      by_cases hc : (b.required = true) ∧ (dictGet args b.name).isNone = true
      · exact ⟨_, by rw [validate_and_serialize_arguments, if_pos hc]⟩
      · rw [validate_and_serialize_arguments, if_neg hc]
        cases hto : b.serializer.to_api ((dictGet args b.name).getD .none) with
        | error e => exact ⟨e, rfl⟩
        | ok v =>
            obtain ⟨a, ha, har, han⟩ := hex
            rcases List.mem_cons.mp ha with rfl | hmem
            · exact absurd ⟨har, by rw [han]; rfl⟩ hc
            · exact ih _ ⟨a, hmem, har, han⟩

theorem vas_first_missing (pre : List APIArgument) (a : APIArgument)
    (post : List APIArgument) (args acc : Dict)
    (hpre : ∀ b ∈ pre, ∃ w, b.serializer.to_api ((dictGet args b.name).getD .none) = .ok w)
    (har : a.required = true) (han : dictGet args a.name = Option.none) :
    validate_and_serialize_arguments (pre ++ a :: post) args acc =
      .error (.missingArguments ("Missing required argument \x27" ++ a.name ++ "\x27")) := by
  induction pre generalizing acc with
  | nil =>
      rw [List.nil_append, validate_and_serialize_arguments,
        if_pos ⟨har, by rw [han]; rfl⟩]
  | cons b pre ih =>
      obtain ⟨w, hw⟩ := hpre b (List.mem_cons_self b pre)
      have hbn : ¬(dictGet args b.name).isNone = true := by
        intro hnone
        obtain ⟨m, hm⟩ := to_api_none_error b.serializer
        rw [Option.isNone_iff_eq_none] at hnone
        rw [hnone, Option.getD_none, hm] at hw
        cases hw
      rw [List.cons_append, validate_and_serialize_arguments, if_neg (fun hc => hbn hc.2),
        hw]
      exact ih _ (fun x hx => hpre x (List.mem_cons_of_mem b hx))

theorem call_api_transform_error (c : Client) (t : Transport) (api : API) (kwargs : Dict)
    (e : PyErr) (ht : api.transform_arguments kwargs = .error e) :
    call_api c t api kwargs = (.error e, []) := by
  simp only [call_api, ht]

theorem call_api_vas_error (c : Client) (t : Transport) (api : API) (kwargs targs : Dict)
    (e : PyErr) (ht : api.transform_arguments kwargs = .ok targs)
    (hv : validate_and_serialize_arguments api.arguments targs = .error e) :
    call_api c t api kwargs = (.error e, []) := by
  simp only [call_api, ht, hv]

theorem call_api_resolve_fault (c : Client) (t : Transport) (api : API)
    (kwargs targs sargs : Dict) (msg : String) (code : Int)
    (ht : api.transform_arguments kwargs = .ok targs)
    (hv : validate_and_serialize_arguments api.arguments targs = .ok sargs)
    (hres : t.resolve api.method = .error (msg, code)) :
    call_api c t api kwargs = (.error (faultWrap msg code), [.resolve api.method]) := by
  simp only [call_api, ht, hv, hres]

theorem call_api_call_fault (c : Client) (t : Transport) (api : API)
    (kwargs targs sargs : Dict) (msg : String) (code : Int)
    (ht : api.transform_arguments kwargs = .ok targs)
    (hv : validate_and_serialize_arguments api.arguments targs = .ok sargs)
    (hres : t.resolve api.method = .ok ())
    (hcall : t.call api.method
      (if api.authenticate then [c.auth, .dict sargs] else [.dict sargs]) =
        .error (msg, code)) :
    call_api c t api kwargs = (.error (faultWrap msg code),
      [.resolve api.method, .invoke api.method
        (if api.authenticate then [c.auth, .dict sargs] else [.dict sargs])]) := by
  simp only [call_api, ht, hv, hres, hcall]

theorem call_api_log (c : Client) (t : Transport) (api : API) (kwargs targs sargs : Dict)
    (ht : api.transform_arguments kwargs = .ok targs)
    (hv : validate_and_serialize_arguments api.arguments targs = .ok sargs)
    (hres : t.resolve api.method = .ok ()) :
    (call_api c t api kwargs).2 =
      [.resolve api.method, .invoke api.method
        (if api.authenticate then [c.auth, .dict sargs] else [.dict sargs])] := by
  cases hcall : t.call api.method
      (if api.authenticate then [c.auth, .dict sargs] else [.dict sargs]) with
  | error f =>
      obtain ⟨msg, code⟩ := f
      simp only [call_api, ht, hv, hres, hcall]
  | ok resp =>
      cases hval : api.validate_response sargs resp with
      | error e => simp only [call_api, ht, hv, hres, hcall, hval]
      | ok u => cases u; simp only [call_api, ht, hv, hres, hcall, hval]

/-! ## Claims -/

/-- C2 (counterexample): the round-trip law fails on the Enum
serializer — `from_wire(to_wire(Affiliation.member))` yields Python
`None`, not the member (`EnumSerializer.to_builtin` has no `return`
statement). -/
theorem C2_counterexample :
    ((Serializer.enumS Affiliation).to_api
        (.enumMember "Affiliation" "member" 3)).bind
      (Serializer.enumS Affiliation).to_builtin = .ok Val.none ∧
    Val.none ≠ Val.enumMember "Affiliation" "member" 3 := by
  exact ⟨rfl, by intro h; cases h⟩

/-- C2 (amended): `from_wire(to_wire(x)) = x` holds for the String,
Integer, NonNegativeInteger and Boolean serializers on their declared
domains; it fails for every Enum serializer (the round trip of a
member returns `None`) and for the DelimitedList serializer
(`from_wire` rejects the comma-joined wire string with
`InvalidValue`). -/
theorem C2_theorem :
    (∀ s : String, (Serializer.string.to_api (.str s)).bind
      Serializer.string.to_builtin = .ok (.str s)) ∧
    (∀ n : Int, (Serializer.integer.to_api (.int n)).bind
      Serializer.integer.to_builtin = .ok (.int n)) ∧
    (∀ n : Int, 0 ≤ n → (Serializer.positiveInteger.to_api (.int n)).bind
      Serializer.positiveInteger.to_builtin = .ok (.int n)) ∧
    (∀ b : Bool, (Serializer.boolean.to_api (.bool b)).bind
      Serializer.boolean.to_builtin = .ok (.bool b)) ∧
    (∀ (cls : EnumClass) (mem : String × Int), mem ∈ cls.members →
      ((Serializer.enumS cls).to_api (.enumMember cls.clsName mem.1 mem.2)).bind
        (Serializer.enumS cls).to_builtin = .ok Val.none) ∧
    (∀ xs : List String, ∃ m, (Serializer.listS.to_api (.list (xs.map .str))).bind
      Serializer.listS.to_builtin = .error (.valueError m)) := by
  refine ⟨fun s => rfl, fun n => ?_, fun n hn => ?_, fun b => ?_, fun cls mem hmem => ?_,
    fun xs => ?_⟩
  · show Serializer.integer.to_builtin (.str (pyStrInt n)) = _
    show (pyIntOf (.str (pyStrInt n))).map Val.int = _
    show (pyParseInt (pyStrInt n).data).map Val.int = _
    rw [pyParseInt_pyStrInt]
    rfl
  · have ha : Serializer.positiveInteger.to_api (.int n) =
        if n < 0 then .error (.valueError ("Expects positive int or long, but got " ++
          pyTypeStr (.int n))) else .ok (.str (pyStrInt n)) := rfl
    have hb : Serializer.positiveInteger.to_builtin (.str (pyStrInt n)) =
        (pyParseInt (pyStrInt n).data).bind (fun m => if m < 0 then
          .error (.valueError ("Expects positive int or long, but got " ++
            pyTypeStr (.str (pyStrInt n)))) else .ok (.int m)) := rfl
    rw [ha, if_neg (by omega)]
    show Serializer.positiveInteger.to_builtin (.str (pyStrInt n)) = _
    rw [hb, pyParseInt_pyStrInt]
    simp [Except.bind, if_neg (show ¬n < 0 by omega)]
  · cases b <;> rfl
  · show ((if cls.clsName = cls.clsName then Except.ok (Val.str mem.1) else _)).bind _ = _
    rw [if_pos rfl]
    show (Serializer.enumS cls).to_builtin (.str mem.1) = _
    unfold Serializer.to_builtin
    have : (cls.get_by_name mem.1).isSome = true := by
      rw [EnumClass.get_by_name, List.find?_isSome]
      exact ⟨mem, hmem, by simp⟩
    match hfind : cls.get_by_name mem.1, this with
    | some p, _ => simp [hfind]
  · obtain ⟨j, hj⟩ := joinComma_str xs true
    refine ⟨"Expects list, but got " ++ pyTypeStr (.str j), ?_⟩
    show (((joinComma (xs.map Val.str) true)).map Val.str).bind _ = _
    rw [hj]
    rfl

/-- C2 (witness): the round-trip theorem at concrete points — the
NonNegativeInteger conjunct at 7 and the Enum conjunct at
`Affiliation.owner`. -/
theorem C2_witness :
    (Serializer.positiveInteger.to_api (.int 7)).bind
      Serializer.positiveInteger.to_builtin = .ok (.int 7) ∧
    ((Serializer.enumS Affiliation).to_api (.enumMember "Affiliation" "owner" 5)).bind
      (Serializer.enumS Affiliation).to_builtin = .ok Val.none :=
  ⟨C2_theorem.2.2.1 7 (by norm_num),
   C2_theorem.2.2.2.2.1 Affiliation ("owner", 5) (by decide)⟩

/-- C5 (counterexample): `EnumSerializer.to_api` does not fail on a
name outside the closed set — any string is passed through
unvalidated. -/
theorem C5_counterexample :
    (Serializer.enumS Affiliation).to_api (.str "not_an_affiliation") =
      .ok (.str "not_an_affiliation") ∧
    (∀ m, (Serializer.enumS Affiliation).to_api (.str "not_an_affiliation") ≠
      .error (.valueError m)) := by
  refine ⟨rfl, fun m h => ?_⟩
  rw [show (Serializer.enumS Affiliation).to_api (.str "not_an_affiliation") =
    .ok (.str "not_an_affiliation") from rfl] at h
  cases h

/-- C5 (amended): `to_wire` fails with `InvalidValue` for the Integer
serializer on the text `"abc"`, the NonNegativeInteger serializer on
`-1`, and the Boolean serializer on the text `"yes"`; the Enum
serializer passes any name-as-text through unvalidated and fails with
`InvalidValue` only on values outside its accepted kinds, e.g. an
integer that is not a member value. -/
theorem C5_theorem :
    Serializer.integer.to_api (.str "abc") =
      .error (.valueError "Expects int or long, but got <class \x27str\x27>") ∧
    Serializer.positiveInteger.to_api (.int (-1)) =
      .error (.valueError "Expects positive int or long, but got <class \x27int\x27>") ∧
    Serializer.boolean.to_api (.str "yes") = .error (.valueError "Expects boolean") ∧
    (∀ s : String, (Serializer.enumS Affiliation).to_api (.str s) = .ok (.str s)) ∧
    (∀ n : Int, Affiliation.get_by_value n = Option.none →
      (Serializer.enumS Affiliation).to_api (.int n) =
        .error (.valueError (pyStrInt n ++ " is not a valid " ++ "Affiliation"))) := by
  refine ⟨rfl, rfl, rfl, fun s => rfl, fun n hn => ?_⟩
  show (match Affiliation.get_by_value n with
    | some m => Except.ok (Val.str m.1)
    | Option.none => Except.error (PyErr.valueError (pyStrInt n ++ " is not a valid " ++
        Affiliation.clsName))) = _
  rw [hn]
  rfl

/-- C5 (witness): the Enum conjunct of the amended theorem at the
value 6, which is outside `Affiliation`'s closed value set. -/
theorem C5_witness :
    (Serializer.enumS Affiliation).to_api (.int 6) =
      .error (.valueError (pyStrInt 6 ++ " is not a valid " ++ "Affiliation")) :=
  C5_theorem.2.2.2.2 6 rfl

/-- C1 (counterexample): `SendMessage` called with `type`, `from_jid`
and `to` supplies no value for the required argument `body`, yet the
pipeline fails with `ValueError` from serializing the absent optional
`subject` — not with `MissingArgument` naming a key.  (The transport
still records zero invocations.) -/
theorem C1_counterexample :
    ((⟨"body", true, .string⟩ : APIArgument) ∈ SendMessage.arguments ∧
      SendMessage.transform_arguments
        [("type", .str "chat"), ("from_jid", .str "a@b"), ("to", .str "c@d")] =
        .ok [("type", .str "chat"), ("to", .str "c@d"), ("from", .str "a@b")] ∧
      dictGet [("type", Val.str "chat"), ("to", .str "c@d"), ("from", .str "a@b")] "body" =
        Option.none) ∧
    call_api stubClient (stubTransport (.dict [("res", .int 0)])) SendMessage
      [("type", .str "chat"), ("from_jid", .str "a@b"), ("to", .str "c@d")] =
      (.error (.valueError "Expects str or unicode, but got <class \x27NoneType\x27>"),
        []) ∧
    (∀ m log, call_api stubClient (stubTransport (.dict [("res", .int 0)])) SendMessage
      [("type", .str "chat"), ("from_jid", .str "a@b"), ("to", .str "c@d")] ≠
      (.error (.missingArguments m), log)) := by
  refine ⟨⟨?_, rfl, rfl⟩, rfl, fun m log h => ?_⟩
  · show _ ∈ [_, _, _, _, _]
    exact List.mem_cons_of_mem _ (List.mem_cons_of_mem _ (List.mem_cons_of_mem _
      (List.mem_cons_of_mem _ (List.mem_cons_self _ _))))
  · rw [show call_api stubClient (stubTransport (.dict [("res", .int 0)])) SendMessage
      [("type", .str "chat"), ("from_jid", .str "a@b"), ("to", .str "c@d")] =
      (.error (.valueError "Expects str or unicode, but got <class \x27NoneType\x27>"),
        []) from rfl] at h
    cases (Prod.mk.injEq _ _ _ _ ▸ h).1

/-- C1 (amended): whenever some required argument is absent from the
transformed arguments, the pipeline fails before any transport
interaction (the transport records zero events); it fails specifically
with `MissingArgument` naming the first such key whenever every
argument declared before it serializes successfully. -/
theorem C1_theorem (c : Client) (t : Transport) (api : API) (kwargs targs : Dict)
    (ht : api.transform_arguments kwargs = .ok targs) :
    ((∃ a ∈ api.arguments, a.required = true ∧ dictGet targs a.name = Option.none) →
      ∃ e, call_api c t api kwargs = (.error e, [])) ∧
    (∀ pre a post, api.arguments = pre ++ a :: post →
      (∀ b ∈ pre, ∃ w, b.serializer.to_api ((dictGet targs b.name).getD .none) = .ok w) →
      a.required = true → dictGet targs a.name = Option.none →
      call_api c t api kwargs =
        (.error (.missingArguments ("Missing required argument \x27" ++ a.name ++ "\x27")),
          [])) := by
  constructor
  · intro hex
    obtain ⟨e, he⟩ := vas_error_of_missing api.arguments targs [] hex
    exact ⟨e, call_api_vas_error c t api kwargs targs e ht he⟩
  · intro pre a post hsplit hpre har han
    refine call_api_vas_error c t api kwargs targs _ ht ?_
    rw [hsplit]
    exact vas_first_missing pre a post targs [] hpre har han

/-- C1 (witness): `registered_users`, whose descriptor has the one
required argument `host`, called with no arguments: the pipeline
fails with `MissingArgument` naming `host` and the transport records
zero events. -/
theorem C1_witness :
    call_api stubClient (stubTransport (.dict [])) RegisteredUsers [] =
      (.error (.missingArguments ("Missing required argument \x27" ++ "host" ++ "\x27")),
        []) :=
  (C1_theorem stubClient (stubTransport (.dict [])) RegisteredUsers [] [] rfl).2
    [] ⟨"host", true, .string⟩ [] rfl (fun b hb => absurd hb (List.not_mem_nil b)) rfl rfl

/-- C3: on every call that reaches the transport, the invocation
carries the credential record (`EjabberdAPIClient.auth`) first and the
serialized-argument mapping second when the operation's `authenticate`
flag is set, and only the serialized-argument mapping when it is not —
and that invocation is the only one. -/
theorem C3_theorem (c : Client) (t : Transport) (api : API) (kwargs targs sargs : Dict)
    (ht : api.transform_arguments kwargs = .ok targs)
    (hv : validate_and_serialize_arguments api.arguments targs = .ok sargs)
    (hres : t.resolve api.method = .ok ()) :
    (call_api c t api kwargs).2 =
      [.resolve api.method, .invoke api.method
        (if api.authenticate then [c.auth, .dict sargs] else [.dict sargs])] :=
  call_api_log c t api kwargs targs sargs ht hv hres

/-- C3 (witness): the `register` call records exactly one invocation,
whose payloads are the credential record then the serialized
arguments. -/
theorem C3_witness :
    (call_api stubClient (stubTransport (.dict [("res", .int 0)])) Register
      [("user", .str "alice"), ("host", .str "example.com"), ("password", .str "secret")]).2 =
      [.resolve "register", .invoke "register"
        (if Register.authenticate then [stubClient.auth,
          .dict [("user", .str "alice"), ("host", .str "example.com"),
            ("password", .str "secret")]]
        else [.dict [("user", .str "alice"), ("host", .str "example.com"),
          ("password", .str "secret")]])] :=
  C3_theorem stubClient (stubTransport (.dict [("res", .int 0)])) Register
    [("user", .str "alice"), ("host", .str "example.com"), ("password", .str "secret")]
    [("user", .str "alice"), ("host", .str "example.com"), ("password", .str "secret")]
    [("user", .str "alice"), ("host", .str "example.com"), ("password", .str "secret")]
    rfl rfl rfl

/-- C4: the `register` operation with user `alice`, host
`example.com`, password `secret`: a transport response `res = 0`
produces the success indicator `True`; a response `res = 1` raises
`UserAlreadyRegisteredError` with a message naming `alice`. -/
theorem C4_theorem :
    call_api stubClient (stubTransport (.dict [("res", .int 0)])) Register
      [("user", .str "alice"), ("host", .str "example.com"), ("password", .str "secret")] =
      (.ok (.bool true),
        [.resolve "register", .invoke "register" [stubClient.auth,
          .dict [("user", .str "alice"), ("host", .str "example.com"),
            ("password", .str "secret")]]]) ∧
    call_api stubClient (stubTransport (.dict [("res", .int 1)])) Register
      [("user", .str "alice"), ("host", .str "example.com"), ("password", .str "secret")] =
      (.error (.userAlreadyRegistered "User with username alice already exist"),
        [.resolve "register", .invoke "register" [stubClient.auth,
          .dict [("user", .str "alice"), ("host", .str "example.com"),
            ("password", .str "secret")]]]) :=
  ⟨rfl, rfl⟩

/-- C7: a transport fault, at method resolution or at invocation, is
re-raised as the generic wrapper `Exception` whose message embeds the
fault's message and code; the transport is never invoked again after
the fault (no retry) and the fault is never swallowed into a
successful result. -/
theorem C7_theorem (c : Client) (t : Transport) (api : API) (kwargs targs sargs : Dict)
    (msg : String) (code : Int)
    (ht : api.transform_arguments kwargs = .ok targs)
    (hv : validate_and_serialize_arguments api.arguments targs = .ok sargs) :
    (t.resolve api.method = .error (msg, code) →
      call_api c t api kwargs =
        (.error (.exception (msg ++ " - code: " ++ pyStrInt code)),
          [.resolve api.method])) ∧
    (t.resolve api.method = .ok () →
      t.call api.method
        (if api.authenticate then [c.auth, .dict sargs] else [.dict sargs]) =
          .error (msg, code) →
      call_api c t api kwargs =
        (.error (.exception (msg ++ " - code: " ++ pyStrInt code)),
          [.resolve api.method, .invoke api.method
            (if api.authenticate then [c.auth, .dict sargs] else [.dict sargs])])) :=
  ⟨fun hres => call_api_resolve_fault c t api kwargs targs sargs msg code ht hv hres,
   fun hres hcall => call_api_call_fault c t api kwargs targs sargs msg code ht hv hres hcall⟩

/-- C7 (witness): a `register` call against a transport that faults
with message `boom` and code 42 surfaces the generic wrapper with both
preserved, after exactly one resolution and one invocation. -/
theorem C7_witness :
    call_api stubClient (faultyCallTransport "boom" 42) Register
      [("user", .str "alice"), ("host", .str "example.com"), ("password", .str "secret")] =
      (.error (.exception ("boom" ++ " - code: " ++ pyStrInt 42)),
        [.resolve "register", .invoke "register"
          (if Register.authenticate then [stubClient.auth,
            .dict [("user", .str "alice"), ("host", .str "example.com"),
              ("password", .str "secret")]]
          else [.dict [("user", .str "alice"), ("host", .str "example.com"),
            ("password", .str "secret")]])]) :=
  (C7_theorem stubClient (faultyCallTransport "boom" 42) Register
    [("user", .str "alice"), ("host", .str "example.com"), ("password", .str "secret")]
    [("user", .str "alice"), ("host", .str "example.com"), ("password", .str "secret")]
    [("user", .str "alice"), ("host", .str "example.com"), ("password", .str "secret")]
    "boom" 42 rfl rfl).2 rfl rfl

theorem mem_dictSet (d : Dict) (key : String) (val : Val) (k : String) (v : Val)
    (hm : (k, v) ∈ dictSet d key val) : k = key ∨ (k, v) ∈ d := by
  induction d with
  | nil =>
      rcases List.mem_singleton.mp hm with h
      exact Or.inl (congrArg Prod.fst h)
  | cons p rest ih =>
      obtain ⟨k0, v0⟩ := p
      rw [dictSet] at hm
      by_cases hk : k0 = key
      · rw [if_pos hk] at hm
        rcases List.mem_cons.mp hm with h | h
        · exact Or.inl (hk ▸ congrArg Prod.fst h)
        · exact Or.inr (List.mem_cons_of_mem _ h)
      · rw [if_neg hk] at hm
        rcases List.mem_cons.mp hm with h | h
        · exact Or.inr (List.mem_cons.mpr (Or.inl h))
        · rcases ih h with h2 | h2
          · exact Or.inl h2
          · exact Or.inr (List.mem_cons_of_mem _ h2)

theorem vas_keys_declared (descs : List APIArgument) (args acc sargs : Dict)
    (hok : validate_and_serialize_arguments descs args acc = .ok sargs)
    (k : String) (v : Val) (hm : (k, v) ∈ sargs) :
    (∃ a ∈ descs, a.name = k) ∨ (k, v) ∈ acc := by
  induction descs generalizing acc with
  | nil =>
      rw [validate_and_serialize_arguments] at hok
      cases hok
      exact Or.inr hm
  | cons b rest ih =>
      rw [validate_and_serialize_arguments] at hok
      by_cases hc : (b.required = true) ∧ (dictGet args b.name).isNone = true
      · rw [if_pos hc] at hok; cases hok
      · rw [if_neg hc] at hok
        cases hto : b.serializer.to_api ((dictGet args b.name).getD .none) with
        | error e => rw [hto] at hok; cases hok
        | ok w =>
            rw [hto] at hok
            rcases ih _ hok with ⟨a, ha, rfl⟩ | hacc
            · exact Or.inl ⟨a, List.mem_cons_of_mem b ha, rfl⟩
            · rcases mem_dictSet acc b.name w k v hacc with rfl | h2
              · exact Or.inl ⟨b, List.mem_cons_self b rest, rfl⟩
              · exact Or.inr h2

theorem vas_optional_absent (descs : List APIArgument) (args : Dict) (a : APIArgument)
    (hmem : a ∈ descs) (_hopt : a.required = false)
    (habs : dictGet args a.name = Option.none) (acc sargs : Dict) :
    validate_and_serialize_arguments descs args acc ≠ .ok sargs := by
  induction descs generalizing acc with
  | nil => cases hmem
  | cons b rest ih =>
      rw [validate_and_serialize_arguments]
      by_cases hc : (b.required = true) ∧ (dictGet args b.name).isNone = true
      · rw [if_pos hc]; intro h; cases h
      · rw [if_neg hc]
        rcases List.mem_cons.mp hmem with rfl | hmem2
        · obtain ⟨m, hm⟩ := to_api_none_error a.serializer
          rw [habs, Option.getD_none, hm]
          intro h; cases h
        · cases hto : b.serializer.to_api ((dictGet args b.name).getD .none) with
          | error e => intro h; cases h
          | ok w => exact ih hmem2 _

/-- C6 (counterexample): the `subject` argument of `send_message` is
optional and absent here, yet the pipeline's serialization step fails
(`ValueError` on the absence marker) instead of serializing a default —
even though every other argument is supplied. -/
theorem C6_counterexample :
    ((⟨"subject", false, .string⟩ : APIArgument) ∈ SendMessage.arguments ∧
      dictGet [("type", Val.str "chat"), ("to", .str "c@d"), ("from", .str "a@b"),
        ("body", .str "hi")] "subject" = Option.none) ∧
    validate_and_serialize_arguments SendMessage.arguments
      [("type", .str "chat"), ("to", .str "c@d"), ("from", .str "a@b"),
        ("body", .str "hi")] =
      .error (.valueError "Expects str or unicode, but got <class \x27NoneType\x27>") := by
  refine ⟨⟨?_, rfl⟩, rfl⟩
  show _ ∈ [_, _, _, _, _]
  exact List.mem_cons_of_mem _ (List.mem_cons_of_mem _ (List.mem_cons_of_mem _
    (List.mem_cons_self _ _)))

/-- C6 (amended): every key of the wire-ready mapping is the name of a
declared argument descriptor (undeclared transformed-argument keys are
never forwarded); an optional argument absent from the transformed
arguments is not given a default — the absence marker `None` is pushed
through its serializer, every serializer rejects `None` with
`InvalidValue`, and hence the call fails. -/
theorem C6_theorem :
    (∀ (api : API) (targs sargs : Dict),
      validate_and_serialize_arguments api.arguments targs = .ok sargs →
      ∀ k v, (k, v) ∈ sargs → ∃ a ∈ api.arguments, a.name = k) ∧
    (∀ s : Serializer, ∃ m, s.to_api .none = .error (.valueError m)) ∧
    (∀ (api : API) (targs : Dict) (a : APIArgument), a ∈ api.arguments →
      a.required = false → dictGet targs a.name = Option.none →
      ∀ sargs, validate_and_serialize_arguments api.arguments targs ≠ .ok sargs) := by
  refine ⟨fun api targs sargs hok k v hm => ?_, to_api_none_error,
    fun api targs a hmem hopt habs sargs =>
      vas_optional_absent api.arguments targs a hmem hopt habs [] sargs⟩
  rcases vas_keys_declared api.arguments targs [] sargs hok k v hm with h | h
  · exact h
  · cases h

/-- C6 (witness): the amended theorem applied to `send_message` with
`subject` absent: serialization cannot succeed. -/
theorem C6_witness :
    validate_and_serialize_arguments SendMessage.arguments
      [("type", .str "chat"), ("to", .str "c@d"), ("from", .str "a@b"),
        ("body", .str "hi")] ≠ .ok [] :=
  C6_theorem.2.2 SendMessage
    [("type", .str "chat"), ("to", .str "c@d"), ("from", .str "a@b"), ("body", .str "hi")]
    ⟨"subject", false, .string⟩
    (List.mem_cons_of_mem _ (List.mem_cons_of_mem _ (List.mem_cons_of_mem _
      (List.mem_cons_self _ _)))) rfl rfl []

/-- C8: `get_room_affiliations` on room `lobby` at service
`muc.example.com`, with the transport answering one affiliation entry
shaped as four single-key mappings, returns the single flattened
record whose `affiliation` field is the `Affiliation` member resolved
from the name. -/
theorem C8_theorem (u d r nm : String) (mv : Int)
    (h : Affiliation.get_by_name nm = some (nm, mv)) :
    call_api stubClient (stubTransport (.dict [("affiliations", .list [
      .dict [("affiliation", .list [.dict [("username", .str u)],
        .dict [("domain", .str d)], .dict [("affiliation", .str nm)],
        .dict [("reason", .str r)]])]])])) GetRoomAffiliations
      [("name", .str "lobby"), ("service", .str "muc.example.com")] =
      (.ok (.list [.dict [("username", .str u), ("domain", .str d),
        ("affiliation", .enumMember "Affiliation" nm mv), ("reason", .str r)]]),
       [.resolve "get_room_affiliations", .invoke "get_room_affiliations"
         [stubClient.auth,
          .dict [("name", .str "lobby"), ("service", .str "muc.example.com")]]]) := by
  have haff : affiliationByName (.str nm) = .ok (.enumMember "Affiliation" nm mv) := by
    show (match Affiliation.get_by_name nm with
      | some m => Except.ok (Val.enumMember "Affiliation" m.1 m.2)
      | Option.none => Except.ok Val.none) = _
    rw [h]
  have hflat : flattenAffiliation (.dict [("affiliation", .list [.dict [("username", .str u)],
      .dict [("domain", .str d)], .dict [("affiliation", .str nm)],
      .dict [("reason", .str r)]])]) =
      .ok (.dict [("username", .str u), ("domain", .str d),
        ("affiliation", .enumMember "Affiliation" nm mv), ("reason", .str r)]) := by
    show Except.bind (affiliationByName (.str nm)) (fun mem => Except.ok (Val.dict
      [("username", .str u), ("domain", .str d), ("affiliation", mem),
        ("reason", .str r)])) = _
    rw [haff]
    rfl
  have hmap : List.mapM flattenAffiliation [Val.dict [("affiliation",
      .list [.dict [("username", .str u)], .dict [("domain", .str d)],
        .dict [("affiliation", .str nm)], .dict [("reason", .str r)]])]] =
      .ok [Val.dict [("username", .str u), ("domain", .str d),
        ("affiliation", .enumMember "Affiliation" nm mv), ("reason", .str r)]] := by
    show Except.bind (flattenAffiliation (.dict [("affiliation",
      .list [.dict [("username", .str u)], .dict [("domain", .str d)],
        .dict [("affiliation", .str nm)], .dict [("reason", .str r)]])]))
      (fun x => Except.ok [x]) = _
    rw [hflat]
    rfl
  have hresp : getRoomAffiliationsResponse (.dict [("affiliations", .list [
      .dict [("affiliation", .list [.dict [("username", .str u)],
        .dict [("domain", .str d)], .dict [("affiliation", .str nm)],
        .dict [("reason", .str r)]])]])]) =
      .ok (.list [.dict [("username", .str u), ("domain", .str d),
        ("affiliation", .enumMember "Affiliation" nm mv), ("reason", .str r)]]) := by
    show Except.bind (List.mapM flattenAffiliation [Val.dict [("affiliation",
      .list [.dict [("username", .str u)], .dict [("domain", .str d)],
        .dict [("affiliation", .str nm)], .dict [("reason", .str r)]])]])
      (fun recs => Except.ok (Val.list recs)) = _
    rw [hmap]
    rfl
  show (getRoomAffiliationsResponse (.dict [("affiliations", .list [
      .dict [("affiliation", .list [.dict [("username", .str u)],
        .dict [("domain", .str d)], .dict [("affiliation", .str nm)],
        .dict [("reason", .str r)]])]])]),
    [TransportEvent.resolve "get_room_affiliations",
      TransportEvent.invoke "get_room_affiliations" [stubClient.auth,
        .dict [("name", .str "lobby"), ("service", .str "muc.example.com")]]]) = _
  rw [hresp]

/-- C8 (witness): the scenario at the member `member` with concrete
strings. -/
theorem C8_witness :
    call_api stubClient (stubTransport (.dict [("affiliations", .list [
      .dict [("affiliation", .list [.dict [("username", .str "bob")],
        .dict [("domain", .str "example.com")], .dict [("affiliation", .str "member")],
        .dict [("reason", .str "ok")]])]])])) GetRoomAffiliations
      [("name", .str "lobby"), ("service", .str "muc.example.com")] =
      (.ok (.list [.dict [("username", .str "bob"), ("domain", .str "example.com"),
        ("affiliation", .enumMember "Affiliation" "member" 3), ("reason", .str "ok")]]),
       [.resolve "get_room_affiliations", .invoke "get_room_affiliations"
         [stubClient.auth,
          .dict [("name", .str "lobby"), ("service", .str "muc.example.com")]]]) :=
  C8_theorem "bob" "example.com" "ok" "member" 3 rfl

theorem heapWrite_get?_ne {i r : Ref} (hne : i ≠ r) (h : Heap) (d : Dict) :
    (heapWrite h r d).get? i = h.get? i := by
  rw [heapWrite, List.get?_eq_getElem?, List.get?_eq_getElem?]
  exact List.getElem?_set_ne (fun e => hne e.symm)

theorem defaultHook_frame (h : Heap) (r i : Ref) (_hne : i ≠ r) :
    ((defaultHook h r).1).get? i = h.get? i := rfl

theorem checkPasswordHashHook_frame (digest : String → String) (h : Heap) (r i : Ref)
    (hne : i ≠ r) : ((checkPasswordHashHook digest h r).1).get? i = h.get? i := by
  unfold checkPasswordHashHook
  dsimp only
  cases dictPop (heapRead h r) "password" with
  | none => rfl
  | some p =>
      obtain ⟨v, kw2⟩ := p
      cases v <;> simp only [heapWrite_get?_ne hne]

theorem sendMessageHook_frame (h : Heap) (r i : Ref) (hne : i ≠ r) :
    ((sendMessageHook h r).1).get? i = h.get? i := by
  unfold sendMessageHook
  dsimp only
  cases dictPop (heapRead h r) "from_jid" with
  | none => rfl
  | some p =>
      obtain ⟨v, kw2⟩ := p
      exact heapWrite_get?_ne hne _ _

theorem changeRoomOptionHook_frame (h : Heap) (r i : Ref) (hne : i ≠ r) :
    ((changeRoomOptionHook h r).1).get? i = h.get? i := by
  unfold changeRoomOptionHook
  dsimp only
  cases (dictGet (heapRead h r) "option").getD Val.none <;> try rfl
  case enumMember c n value =>
    dsimp only
    by_cases hc : c = "MUCRoomOption"
    · rw [if_pos hc]
      cases dictGet (heapRead h r) "value" with
      | none => rfl
      | some oldv =>
          dsimp only
          cases (muc_room_options_serializers n).to_api oldv with
          | error e => rfl
          | ok w => exact heapWrite_get?_ne hne _ _
    · rw [if_neg hc]

theorem setLogLevelHook_frame (h : Heap) (r i : Ref) (hne : i ≠ r) :
    ((setLogLevelHook h r).1).get? i = h.get? i := by
  unfold setLogLevelHook
  dsimp only
  cases dictPop (heapRead h r) "loglevel" with
  | none => rfl
  | some p =>
      obtain ⟨v, kw2⟩ := p
      cases v <;> try exact heapWrite_get?_ne hne _ _
      case enumMember c n value =>
        dsimp only
        by_cases hc : c = "LogLevelOptions"
        · rw [if_pos hc]
          cases dictGet kw2 "value" with
          | none => exact heapWrite_get?_ne hne _ _
          | some oldv =>
              dsimp only
              cases Serializer.string.to_api oldv with
              | error e => exact heapWrite_get?_ne hne _ _
              | ok w => simp only [heapWrite_get?_ne hne]
        · rw [if_neg hc]
          exact heapWrite_get?_ne hne _ _

theorem ne_append2_length (l : Heap) (r : Nat) (hr : r < l.length) (a b : Dict) :
    r ≠ ((l ++ [a]) ++ [b]).length := by
  simp only [List.length_append, List.length_cons, List.length_nil]
  omega

theorem get?_append3_lt (l : Heap) (r : Nat) (hr : r < l.length) (a b d : Dict) :
    (((l ++ [a]) ++ [b]) ++ [d]).get? r = l.get? r := by
  have h1 : r < (l ++ [a]).length := by
    simp only [List.length_append, List.length_cons, List.length_nil]
    omega
  have h2 : r < ((l ++ [a]) ++ [b]).length := by
    simp only [List.length_append, List.length_cons, List.length_nil]
    omega
  rw [List.get?_eq_getElem?, List.get?_eq_getElem?, List.getElem?_append_left h2,
    List.getElem?_append_left h1, List.getElem?_append_left hr]

theorem call_api_ref_core_frame (c : Client) (t : Transport) (api : HeapAPI)
    (h3 : Heap) (tRef i : Ref) (hne : i ≠ tRef)
    (hframe : ∀ hh rr ii, ii ≠ rr →
      ((api.transform_arguments hh rr).1).get? ii = hh.get? ii) :
    ((call_api_ref_core c t api h3 tRef).1).get? i = h3.get? i := by
  have hh := hframe h3 tRef i hne
  unfold call_api_ref_core
  rcases hta : api.transform_arguments h3 tRef with ⟨h4, res⟩
  rw [hta] at hh
  dsimp only at hh
  cases res with
  | error e => exact hh
  | ok retRef =>
      dsimp only
      cases validate_and_serialize_arguments api.arguments (heapRead h4 retRef) with
      | error e => exact hh
      | ok sargs =>
          dsimp only
          rcases t.resolve api.method with ⟨msg, code⟩ | u
          · exact hh
          · cases u
            dsimp only
            rcases t.call api.method
                (if api.authenticate then [c.auth, .dict sargs] else [.dict sargs]) with
              ⟨msg, code⟩ | resp
            · exact hh
            · dsimp only
              cases api.validate_response sargs resp with
              | error e => exact hh
              | ok u2 => cases u2; exact hh

/-- C10: for every modelled operation (the identity hook and each of
the catalog's overriding `transform_arguments` hooks — popping,
renaming, deriving or reassigning arguments), the caller's dictionary
holds exactly the entries it held before the call, whether the
pipeline returns or fails: the hooks only ever mutate the fresh copies
made by the `**kwargs` packing and `copy.copy`. -/
theorem C10_theorem (digest : String → String) (api : HeapAPI)
    (hapi : api ∈ heapCatalog digest) (c : Client) (t : Transport) (h0 : Heap) (r : Ref)
    (hr : r < h0.length) :
    ((call_api_ref c t api h0 r).1).get? r = h0.get? r := by
  have hframe : ∀ hh rr ii, ii ≠ rr →
      ((api.transform_arguments hh rr).1).get? ii = hh.get? ii := by
    simp only [heapCatalog, List.mem_cons, List.not_mem_nil, or_false] at hapi
    rcases hapi with rfl | rfl | rfl | rfl | rfl
    · exact fun hh rr ii hne => defaultHook_frame hh rr ii hne
    · exact fun hh rr ii hne => checkPasswordHashHook_frame digest hh rr ii hne
    · exact fun hh rr ii hne => sendMessageHook_frame hh rr ii hne
    · exact fun hh rr ii hne => changeRoomOptionHook_frame hh rr ii hne
    · exact fun hh rr ii hne => setLogLevelHook_frame hh rr ii hne
  unfold call_api_ref
  simp only [heapAlloc]
  rw [call_api_ref_core_frame c t api _ _ r (ne_append2_length h0 r hr _ _) hframe,
    get?_append3_lt h0 r hr _ _ _]

/-- C10 (witness): a `check_password_hash` call — whose hook pops
`password` and derives `passwordhash`/`hashmethod` — leaves the
caller's dictionary exactly as it was. -/
theorem C10_witness :
    ((call_api_ref stubClient (stubTransport (.dict [("res", .int 0)]))
      (CheckPasswordHashRef (fun s => s ++ "#sha"))
      [[("user", Val.str "u"), ("host", .str "h"), ("password", .str "pw")]] 0).1).get? 0 =
      some [("user", Val.str "u"), ("host", .str "h"), ("password", .str "pw")] := by
  rw [C10_theorem (fun s => s ++ "#sha") (CheckPasswordHashRef (fun s => s ++ "#sha"))
    (List.mem_cons_of_mem _ (List.mem_cons_self _ _)) stubClient
    (stubTransport (.dict [("res", .int 0)]))
    [[("user", Val.str "u"), ("host", .str "h"), ("password", .str "pw")]] 0
    (by norm_num)]
  rfl

theorem tw_append (P : Char → Bool) (xs ys : List Char) (h : ∀ c ∈ xs, P c = true) :
    (xs ++ ys).takeWhile P = xs ++ ys.takeWhile P := by
  induction xs with
  | nil => simp
  | cons c cs ih =>
      rw [List.cons_append, List.takeWhile_cons, if_pos (h c (List.mem_cons_self c cs)),
        ih (fun x hx => h x (List.mem_cons_of_mem c hx)), List.cons_append]

theorem tw_stop (P : Char → Bool) (c : Char) (ys : List Char) (h : P c = false) :
    (c :: ys).takeWhile P = [] := by
  rw [List.takeWhile_cons, if_neg (by rw [h]; exact fun hx => nomatch hx)]

theorem schemeChar_ne_colon (c : Char) (h : isSchemeChar c = true) :
    decide (c ≠ ':') = true := by
  rcases Decidable.em (c = ':') with rfl | hne
  · exact absurd h (by decide)
  · simp [hne]

theorem parseSchemeSplit_eq (s rest : List Char) (hne : s ≠ [])
    (hh : s.head?.elim false Char.isAlpha = true) (hall : ∀ c ∈ s, isSchemeChar c = true) :
    parseSchemeSplit (s ++ ':' :: rest) = some (s.map Char.toLower, rest) := by
  have htw : (s ++ ':' :: rest).takeWhile (fun c => decide (c ≠ ':')) = s := by
    rw [tw_append _ s _ (fun c hc => schemeChar_ne_colon c (hall c hc)),
      tw_stop _ ':' rest (by simp), List.append_nil]
  unfold parseSchemeSplit
  rw [htw]
  rw [if_pos ?hcond]
  case hcond =>
    refine ⟨?_, hne, hh, List.all_eq_true.mpr hall⟩
    rw [List.length_append, List.length_cons]
    omega
  rw [List.append_cons s ':' rest,
    show s.length + 1 = (s ++ [':']).length by simp, List.drop_left]

theorem tw_all (P : Char → Bool) (xs : List Char) (h : ∀ c ∈ xs, P c = true) :
    xs.takeWhile P = xs := by
  induction xs with
  | nil => rfl
  | cons c cs ih =>
      rw [List.takeWhile_cons, if_pos (h c (List.mem_cons_self c cs)),
        ih (fun x hx => h x (List.mem_cons_of_mem c hx))]

theorem dw_all_true (P : Char → Bool) (xs : List Char) (h : ∀ c ∈ xs, P c = true) :
    xs.dropWhile P = [] := by
  induction xs with
  | nil => rfl
  | cons c cs ih =>
      rw [List.dropWhile_cons, if_pos (h c (List.mem_cons_self c cs))]
      exact ih (fun x hx => h x (List.mem_cons_of_mem c hx))

theorem splitParams_no_semi (l : List Char) (h : ¬ ';' ∈ l) : splitParams l = l := by
  unfold splitParams
  rw [if_neg h]

theorem pyUrlparse_netloc_nopath (s mid : List Char) (hne : s ≠ [])
    (hh : s.head?.elim false Char.isAlpha = true) (hall : ∀ c ∈ s, isSchemeChar c = true)
    (hmid : ∀ c ∈ mid, (!isNetlocEnd c) = true) :
    pyUrlparse (s ++ ':' :: '/' :: '/' :: mid) = (s.map Char.toLower, mid, []) := by
  unfold pyUrlparse
  rw [parseSchemeSplit_eq s ('/' :: '/' :: mid) hne hh hall]
  dsimp only
  rw [if_pos (by rfl)]
  have hdrop : List.drop 2 ('/' :: '/' :: mid) = mid := rfl
  rw [hdrop]
  rw [tw_all _ mid hmid, dw_all_true _ mid hmid, List.takeWhile_nil, List.takeWhile_nil,
    splitParams_no_semi [] (List.not_mem_nil ';')]

end Ejd
